import Mathlib

/-!
# ESP-NOW BME280 sensor node

A shallow embedding of `src/main.cpp`: the wake / read / send / wait / sleep
cycle of the firmware, with every call into a peripheral or library recorded
in a trace.

Conventions of the embedding

* A `float` is its 32-bit IEEE-754 pattern, held as a `Nat`.  Floating-point
  arithmetic (`/ 100.0`, `/ 216.0`) is left uninterpreted: it is supplied by
  the environment as a function on bit patterns.
* `int` arithmetic is 32-bit twos-complement (`wrapInt32`).
* Values the program reads from outside (sensor results, the result of
  `esp_now_init()`, `RANDOM_REG32`, `millis()`) are fields of `Env`.
* `ESP.deepSleep` is the platform primitive that does not return: the
  statements that follow a call to it in the source are not executed.  This
  is the `asleep` outcome of `Res`.
-/

namespace ESPNowBMP280

/-! ## Constants of the source -/

/-- Source: `#define WIFI_CHANNEL 4`. -/
def WIFI_CHANNEL : Nat := 4

/-- Source: `#define SLEEP_SECS 15 * 60`.  The macro has no parentheses; at its one
use, `SLEEP_SECS + (...)`, the product binds tighter than the sum, so the
expansion is `(15 * 60) + (...)`. -/
def SLEEP_SECS : Int := 15 * 60

/-- Source: `#define SEND_TIMEOUT 245`. -/
def SEND_TIMEOUT : Nat := 245

/-! ## Machine arithmetic -/

/-- Value of a 32-bit twos-complement `int` holding the mathematical
integer `x`. -/
def wrapInt32 (x : Int) : Int := (x + 2147483648) % 4294967296 - 2147483648

/-- The cast `(uint8_t)` applied to a 32-bit unsigned register value. -/
def toUInt8 (r : Nat) : Nat := (r % 4294967296) % 256

/-- Conversion of an `int` to the `uint64_t` parameter of `ESP.deepSleep`. -/
def toUInt64 (x : Int) : Nat := (x % 18446744073709551616).toNat

/-! ## Data model -/

/-- Source: `struct __attribute__((packed)) SENSOR_DATA`, four `float`s, each held as
its 32-bit pattern. -/
structure SENSOR_DATA where
  temp : Nat
  humidity : Nat
  pressure : Nat
  voltage : Nat
deriving DecidableEq, Repr

/-- The global variables of `main.cpp`. -/
structure Globals where
  remoteMac : List Nat
  sensorData : SENSOR_DATA
  callbackCalled : Bool
  sensorValue : Int
deriving DecidableEq, Repr

/-- The globals as they are when the device wakes: `remoteMac` and
`sensorValue` carry their initialisers, `sensorData` and `callbackCalled`
are zero-initialised. -/
def Globals.boot : Globals :=
  { remoteMac := [0x24, 0x6F, 0x28, 0xAB, 0xBC, 0x49]
    sensorData := { temp := 0, humidity := 0, pressure := 0, voltage := 0 }
    callbackCalled := false
    sensorValue := 0 }

/-- What the outside world answers during one invocation. -/
structure Env where
  /-- value returned by `bme280.begin()` -/
  bmeBegin : Nat
  /-- bit pattern returned by `bme280.readTempC()` -/
  readTempC : Nat
  /-- bit pattern returned by `bme280.readFloatPressure()` -/
  readFloatPressure : Nat
  /-- the `float` stored by `x / 100.0`, as a function of the pattern of `x` -/
  divBy100 : Nat → Nat
  /-- value returned by `analogRead(analogInPin)` -/
  analogRead : Int
  /-- the `float` stored by `n / 216.0`, as a function of the `int` `n` -/
  divBy216 : Int → Nat
  /-- value returned by `esp_now_init()` -/
  espNowInit : Int
  /-- value read from `RANDOM_REG32` -/
  randomReg32 : Nat
  /-- value returned by `millis()` in the test of `loop()` -/
  millis : Nat
  /-- value returned by `millis()` for the diagnostic line of `gotoSleep()` -/
  millisDiag : Nat

/-- Lines written to `Serial`. -/
inductive Diag where
  | newline
  | bmeInitLabel
  | hex (v : Nat)
  | readings (d : SENSOR_DATA)
  | thisMac
  | targetMac (mac : List Nat)
  | channel (c : Nat)
  | initFailed
  | initSuccess
  | sendDone (status : Nat)
  | upFor (ms : Nat) (secs : Int)
deriving DecidableEq, Repr

/-- Calls observed during a wake cycle.  `readBME280` and `gotoSleep` mark
the entry of the two functions of the source with those names; every other
constructor is a call into a peripheral or library. -/
inductive Event where
  | serialBegin (baud : Nat)
  | serial (d : Diag)
  | wireBegin
  | wireSetClock (hz : Nat)
  | bmeBeginI2C
  | bmeSetI2CAddress (a : Nat)
  | bmeSetModeSleep
  | readBME280
  | bmeCommInterfaceI2C
  | bmeI2CAddress (a : Nat)
  | bmeRunMode (m : Nat)
  | bmeTempOverSample (n : Nat)
  | bmePressOverSample (n : Nat)
  | bmeHumidOverSample (n : Nat)
  | bmeBegin
  | bmeReadTempC
  | bmeReadFloatPressure
  | analogReadA0
  | wifiModeSTA
  | wifiDisconnect
  | wifiMacAddress
  | espNowInit
  | espNowSetSelfRoleController
  | espNowAddPeerSlave (mac : List Nat) (channel : Nat)
  | espNowRegisterSendCb
  | espNowSend (payload : List Nat) (len : Nat)
  | gotoSleep
  | deepSleep (us : Nat)
deriving DecidableEq, Repr

/-- Program state during a cycle: the globals and the calls made so far, in
the order they were made. -/
structure St where
  g : Globals
  trace : List Event
deriving DecidableEq, Repr

/-- State at wake: boot globals, nothing done yet. -/
def St.wake : St := { g := Globals.boot, trace := [] }

/-- Outcome of running a piece of the firmware: it returned (`ok`), or it
entered `ESP.deepSleep` (`asleep`) and nothing after it runs. -/
inductive Res (α : Type) where
  | ok (a : α) (s : St)
  | asleep (s : St)
deriving DecidableEq, Repr

/-- State carried by an outcome. -/
def Res.st {α : Type} : Res α → St
  | .ok _ s => s
  | .asleep s => s

/-- True when the device has entered deep sleep. -/
def Res.isAsleep {α : Type} : Res α → Bool
  | .ok _ _ => false
  | .asleep _ => true

/-- A piece of firmware code. -/
def Fw (α : Type) : Type := Env → St → Res α

/-- Return without effect. -/
def Fw.pure {α : Type} (a : α) : Fw α := fun _ s => .ok a s

/-- Sequencing: the second part runs only if the first one returned. -/
def Fw.bind {α β : Type} (m : Fw α) (f : α → Fw β) : Fw β := fun e s =>
  match m e s with
  | .ok a s1 => f a e s1
  | .asleep s1 => .asleep s1

instance Fw.instMonad : Monad Fw where
  pure := Fw.pure
  bind := Fw.bind

/-- Record a call. -/
def emit (ev : Event) : Fw Unit := fun _ s =>
  .ok () { s with trace := s.trace ++ [ev] }

/-- Read the globals. -/
def getG : Fw Globals := fun _ s => .ok s.g s

/-- Update the globals. -/
def setG (f : Globals → Globals) : Fw Unit := fun _ s =>
  .ok () { s with g := f s.g }

/-- Read the environment. -/
def getEnv : Fw Env := fun e s => .ok e s

/-- Modelled from the spec: the platform deep-sleep primitive behind
`ESP.deepSleep(us, RF_NO_CAL)`, which belongs to the board support library and
not to `main.cpp`.  The spec gives it as `sleepFor(duration) -> never returns,
resets on wake`: the call is recorded and control does not come back to the
caller. -/
def deepSleep (us : Nat) : Fw Unit := fun _ s =>
  .asleep { s with trace := s.trace ++ [Event.deepSleep us] }

/-! ## Wire image of `sensorData` -/

/-- The four bytes of a 32-bit word in memory, lowest address first.  The
target stores words little-endian (spec: 4-byte little-endian floats). -/
def le32 (w : Nat) : List Nat :=
  [w % 256, (w / 256) % 256, (w / 65536) % 256, (w / 16777216) % 256]

/-- Memory image of the packed struct: the fields in declaration order, no
padding. -/
def SENSOR_DATA.bytes (d : SENSOR_DATA) : List Nat :=
  le32 d.temp ++ le32 d.humidity ++ le32 d.pressure ++ le32 d.voltage

/-- Value of `sizeof(sensorData)`: four packed 4-byte fields. -/
def sizeofSensorData : Nat := 4 + 4 + 4 + 4

/-- Call `memcpy(dst, src, n)`: the first `n` bytes of the source image. -/
def memcpy (src : List Nat) (n : Nat) : List Nat := src.take n

/-! ## The functions of `main.cpp` -/

/-- Function `void readBME280()`. -/
def readBME280 : Fw Unit := do
  emit .readBME280
  emit .bmeCommInterfaceI2C
  emit (.bmeI2CAddress 0x76)
  emit (.bmeRunMode 2)
  emit (.bmeTempOverSample 1)
  emit (.bmePressOverSample 1)
  emit (.bmeHumidOverSample 1)
  let e ← getEnv
  emit (.serial .bmeInitLabel)
  emit .bmeBegin
  emit (.serial (.hex e.bmeBegin))
  emit .bmeReadTempC
  setG fun g => { g with sensorData := { g.sensorData with temp := e.readTempC } }
  emit .bmeReadFloatPressure
  setG fun g => { g with sensorData :=
    { g.sensorData with pressure := e.divBy100 e.readFloatPressure } }
  emit .analogReadA0
  setG fun g => { g with sensorData :=
    { g.sensorData with voltage := e.divBy216 e.analogRead } }
  emit (.serial (.readings (← getG).sensorData))

/-- The `int sleepSecs` of `gotoSleep()` for register value `r`:
`SLEEP_SECS + ((uint8_t)RANDOM_REG32/2)`.  `RANDOM_REG32` is a read of a
32-bit hardware register, defined in the board support headers; `r` is the
value read.  The cast binds tighter than the division; the `uint8_t` is
promoted to `int` before dividing. -/
def sleepSecs (r : Nat) : Int :=
  wrapInt32 (SLEEP_SECS + Int.tdiv (toUInt8 r : Int) 2)

/-- Function `void gotoSleep()`. -/
def gotoSleep : Fw Unit := do
  emit .gotoSleep
  let e ← getEnv
  let secs : Int := sleepSecs e.randomReg32
  emit (.serial (.upFor e.millisDiag secs))
  deepSleep (toUInt64 (wrapInt32 (secs * 1000000)))

/-- The lambda registered with `esp_now_register_send_cb`. -/
def sendCallback (_mac : List Nat) (sendStatus : Nat) : Fw Unit := do
  emit (.serial (.sendDone sendStatus))
  setG fun g => { g with callbackCalled := true }

/-- Function `void setup()`. -/
def setup : Fw Unit := do
  emit (.serialBegin 115200)
  emit (.serial .newline)
  emit .wireBegin
  emit (.wireSetClock 400000)
  emit .bmeBeginI2C
  emit (.bmeSetI2CAddress 0x76)
  emit .bmeSetModeSleep
  readBME280
  emit .wifiModeSTA
  emit .wifiDisconnect
  emit .wifiMacAddress
  emit (.serial .thisMac)
  emit (.serial (.targetMac (← getG).remoteMac))
  emit (.serial (.channel WIFI_CHANNEL))
  emit .espNowInit
  if (← getEnv).espNowInit ≠ 0 then
    emit (.serial .initFailed)
    gotoSleep
  emit (.serial .initSuccess)
  emit .espNowSetSelfRoleController
  emit (.espNowAddPeerSlave (← getG).remoteMac WIFI_CHANNEL)
  emit .espNowRegisterSendCb
  setG fun g => { g with callbackCalled := false }
  let bs := memcpy (← getG).sensorData.bytes sizeofSensorData
  emit (.espNowSend bs sizeofSensorData)

/-- Function `void loop()`.  The `||` short-circuits: `millis()` is read only
when the flag is clear. -/
def loop : Fw Unit := do
  let cond ←
    if (← getG).callbackCalled then (pure true : Fw Bool)
    else do
      let t := (← getEnv).millis
      pure (decide (t > SEND_TIMEOUT))
  if cond then
    gotoSleep

/-! ## The cycle around `setup()` and `loop()` -/

/-- What happens after `setup()` has returned: the Arduino core calls
`loop()` again (`tick t`, with `t` the value `millis()` returns in its test),
or the ESP-NOW stack invokes the registered send callback (`sendDone`). -/
inductive Step where
  | tick (t : Nat)
  | sendDone (mac : List Nat) (status : Nat)
deriving DecidableEq, Repr

/-- One step of the cycle. -/
def runStep (e : Env) : Step → St → Res Unit
  | .tick t, s => loop { e with millis := t } s
  | .sendDone mac status, s => sendCallback mac status e s

/-- The steps in order, for as long as the device is awake. -/
def run (e : Env) : List Step → St → Res Unit
  | [], s => .ok () s
  | st :: rest, s =>
    match runStep e st s with
    | .ok _ s1 => run e rest s1
    | .asleep s1 => .asleep s1

/-- One wake cycle: `setup()` from the boot state, then the given steps. -/
def cycle (e : Env) (steps : List Step) : Res Unit :=
  match setup e St.wake with
  | .ok _ s => run e steps s
  | .asleep s => .asleep s

/-! ## Observations on traces -/

/-- The calls a piece of code adds to the trace. -/
def eventsOf {α : Type} (m : Fw α) (e : Env) (s : St) : List Event :=
  (m e s).st.trace.drop s.trace.length

/-- The `(payload, len)` arguments of the `esp_now_send` calls of a trace. -/
def sends : List Event → List (List Nat × Nat)
  | [] => []
  | .espNowSend bs n :: rest => (bs, n) :: sends rest
  | _ :: rest => sends rest

/-- Calls that sample the sensor or the analog input, and the entry of
`readBME280()`. -/
def Event.isSensorRead : Event → Bool
  | .readBME280 => true
  | .bmeBegin => true
  | .bmeReadTempC => true
  | .bmeReadFloatPressure => true
  | .analogReadA0 => true
  | _ => false

/-- Calls into the WiFi or ESP-NOW stack. -/
def Event.isRadio : Event → Bool
  | .wifiModeSTA => true
  | .wifiDisconnect => true
  | .wifiMacAddress => true
  | .espNowInit => true
  | .espNowSetSelfRoleController => true
  | .espNowAddPeerSlave _ _ => true
  | .espNowRegisterSendCb => true
  | .espNowSend _ _ => true
  | _ => false

/-- The external actions whose order `setup()` fixes. -/
inductive Action where
  | sensorRead
  | radioMode
  | radioInit
  | addPeer
  | registerSendCb
  | send
deriving DecidableEq, Repr

/-- The ordered action a call stands for, if any. -/
def Event.action : Event → Option Action
  | .readBME280 => some .sensorRead
  | .wifiModeSTA => some .radioMode
  | .espNowInit => some .radioInit
  | .espNowAddPeerSlave _ _ => some .addPeer
  | .espNowRegisterSendCb => some .registerSendCb
  | .espNowSend _ _ => some .send
  | _ => none

/-- Every field is a 32-bit pattern. -/
def SENSOR_DATA.wf (d : SENSOR_DATA) : Prop :=
  d.temp < 4294967296 ∧ d.humidity < 4294967296 ∧
  d.pressure < 4294967296 ∧ d.voltage < 4294967296

instance SENSOR_DATA.decidableWf (d : SENSOR_DATA) : Decidable d.wf := by
  unfold SENSOR_DATA.wf
  infer_instance

/-- The 32-bit word whose little-endian bytes are `b0 b1 b2 b3`. -/
def word32 (b0 b1 b2 b3 : Nat) : Nat :=
  b0 + 256 * b1 + 65536 * b2 + 16777216 * b3

/-- The reading a receiver makes of a payload, following the words of the spec: the
same fixed layout, 16 bytes, four little-endian 32-bit words in the order
temperature, humidity, pressure, voltage. -/
def decode : List Nat → Option SENSOR_DATA
  | [a0, a1, a2, a3, b0, b1, b2, b3, c0, c1, c2, c3, d0, d1, d2, d3] =>
    some { temp := word32 a0 a1 a2 a3, humidity := word32 b0 b1 b2 b3,
           pressure := word32 c0 c1 c2 c3, voltage := word32 d0 d1 d2 d3 }
  | _ => none


/-! ## The traces of the functions, written out -/

/-- The value of `sensorData` once `readBME280()` has run on `d`. -/
def readingAfter (e : Env) (d : SENSOR_DATA) : SENSOR_DATA :=
  { d with
    temp := e.readTempC
    pressure := e.divBy100 e.readFloatPressure
    voltage := e.divBy216 e.analogRead }

/-- The calls of `setup()` up to and including `esp_now_init()`. -/
def setupHead (e : Env) (g : Globals) : List Event :=
  [Event.serialBegin 115200, Event.serial Diag.newline, Event.wireBegin,
   Event.wireSetClock 400000, Event.bmeBeginI2C, Event.bmeSetI2CAddress 0x76,
   Event.bmeSetModeSleep,
   Event.readBME280, Event.bmeCommInterfaceI2C, Event.bmeI2CAddress 0x76,
   Event.bmeRunMode 2, Event.bmeTempOverSample 1, Event.bmePressOverSample 1,
   Event.bmeHumidOverSample 1, Event.serial Diag.bmeInitLabel, Event.bmeBegin,
   Event.serial (Diag.hex e.bmeBegin), Event.bmeReadTempC,
   Event.bmeReadFloatPressure, Event.analogReadA0,
   Event.serial (Diag.readings (readingAfter e g.sensorData)),
   Event.wifiModeSTA, Event.wifiDisconnect, Event.wifiMacAddress,
   Event.serial Diag.thisMac, Event.serial (Diag.targetMac g.remoteMac),
   Event.serial (Diag.channel WIFI_CHANNEL), Event.espNowInit]

/-- The calls of `setup()` after a successful `esp_now_init()`. -/
def setupTail (e : Env) (g : Globals) : List Event :=
  [Event.serial Diag.initSuccess, Event.espNowSetSelfRoleController,
   Event.espNowAddPeerSlave g.remoteMac WIFI_CHANNEL, Event.espNowRegisterSendCb,
   Event.espNowSend (memcpy (readingAfter e g.sensorData).bytes sizeofSensorData)
     sizeofSensorData]

/-- The calls of `gotoSleep()`. -/
def sleepEvents (e : Env) : List Event :=
  [Event.gotoSleep,
   Event.serial (Diag.upFor e.millisDiag (sleepSecs e.randomReg32)),
   Event.deepSleep (toUInt64 (wrapInt32 (sleepSecs e.randomReg32 * 1000000)))]

/-! ## Sample inputs -/

/-- A sample environment: sensor present, radio initialises. -/
def sampleEnv : Env :=
  { bmeBegin := 0x60, readTempC := 0x41A00000, readFloatPressure := 0x47C5E680,
    divBy100 := fun _ => 0x447D4000, analogRead := 712, divBy216 := fun _ => 0x4052F684,
    espNowInit := 0, randomReg32 := 255, millis := 50, millisDiag := 51 }

/-- A sample environment in which `esp_now_init()` fails. -/
def failEnv : Env := { sampleEnv with espNowInit := 1 }

/-! ## Symbolic evaluation of the functions -/

theorem gotoSleep_eq (e : Env) (s : St) :
    gotoSleep e s = .asleep { s with trace := s.trace ++
      [Event.gotoSleep,
       Event.serial (Diag.upFor e.millisDiag (sleepSecs e.randomReg32)),
       Event.deepSleep (toUInt64 (wrapInt32 (sleepSecs e.randomReg32 * 1000000)))] } := by
  simp [gotoSleep, emit, getEnv, deepSleep, bind, Fw.bind]

theorem sendCallback_eq (mac : List Nat) (status : Nat) (e : Env) (s : St) :
    sendCallback mac status e s = .ok ()
      { g := { s.g with callbackCalled := true },
        trace := s.trace ++ [Event.serial (Diag.sendDone status)] } := by
  simp [sendCallback, emit, setG, bind, Fw.bind]

theorem loop_eq (e : Env) (s : St) :
    loop e s =
      if s.g.callbackCalled = true ∨ SEND_TIMEOUT < e.millis then gotoSleep e s
      else .ok () s := by
  cases hc : s.g.callbackCalled <;> by_cases ht : SEND_TIMEOUT < e.millis <;>
    simp [loop, getG, getEnv, bind, Fw.bind, pure, Fw.pure, hc, ht]

/-- The reading `readBME280()` leaves in `sensorData`. -/
theorem readBME280_eq (e : Env) (s : St) :
    readBME280 e s = .ok ()
      { g := { s.g with sensorData :=
                { s.g.sensorData with
                  temp := e.readTempC
                  pressure := e.divBy100 e.readFloatPressure
                  voltage := e.divBy216 e.analogRead } },
        trace := s.trace ++
          [Event.readBME280, Event.bmeCommInterfaceI2C, Event.bmeI2CAddress 0x76,
           Event.bmeRunMode 2, Event.bmeTempOverSample 1, Event.bmePressOverSample 1,
           Event.bmeHumidOverSample 1, Event.serial Diag.bmeInitLabel, Event.bmeBegin,
           Event.serial (Diag.hex e.bmeBegin), Event.bmeReadTempC,
           Event.bmeReadFloatPressure, Event.analogReadA0,
           Event.serial (Diag.readings
             { s.g.sensorData with
               temp := e.readTempC
               pressure := e.divBy100 e.readFloatPressure
               voltage := e.divBy216 e.analogRead })] } := by
  simp [readBME280, emit, getG, setG, getEnv, bind, Fw.bind]


theorem setup_ok (e : Env) (s : St) (h : e.espNowInit = 0) :
    setup e s = .ok ()
      { g := { s.g with sensorData := readingAfter e s.g.sensorData
                        callbackCalled := false },
        trace := s.trace ++ (setupHead e s.g ++ setupTail e s.g) } := by
  simp [setup, readBME280, emit, getG, setG, getEnv, bind, Fw.bind, pure, Fw.pure, h,
    setupHead, setupTail, readingAfter]

theorem setup_fail (e : Env) (s : St) (h : e.espNowInit ≠ 0) :
    setup e s = .asleep
      { g := { s.g with sensorData := readingAfter e s.g.sensorData },
        trace := s.trace ++
          (setupHead e s.g ++ (Event.serial Diag.initFailed :: sleepEvents e)) } := by
  simp [setup, readBME280, gotoSleep, deepSleep, emit, getG, setG, getEnv, bind, Fw.bind, pure,
    Fw.pure, h,
    setupHead, sleepEvents, readingAfter]



theorem sleepSecs_eq (r : Nat) : sleepSecs r = 900 + ((r % 256 / 2 : Nat) : Int) := by
  unfold sleepSecs wrapInt32 SLEEP_SECS toUInt8
  rw [Int.tdiv_eq_ediv (by omega) (by omega)]
  omega

theorem sleepSecs_bounds (r : Nat) : 900 ≤ sleepSecs r ∧ sleepSecs r ≤ 1027 := by
  rw [sleepSecs_eq]; omega

theorem sleepMicros_eq (r : Nat) :
    wrapInt32 (sleepSecs r * 1000000) = sleepSecs r * 1000000 := by
  have h := sleepSecs_bounds r
  unfold wrapInt32
  omega

theorem toUInt64_of_nonneg (x : Int) (h0 : 0 ≤ x) (h1 : x < 18446744073709551616) :
    toUInt64 x = x.toNat := by
  unfold toUInt64
  rw [Int.emod_eq_of_lt h0 h1]

theorem toUInt64_sleepMicros (r : Nat) :
    toUInt64 (wrapInt32 (sleepSecs r * 1000000)) = (900 + r % 256 / 2) * 1000000 := by
  have h1 := sleepMicros_eq r
  have h2 := sleepSecs_eq r
  rw [h1, toUInt64_of_nonneg _ (by omega) (by omega), h2]
  omega


/-! ## Traces -/

theorem sends_append (a b : List Event) : sends (a ++ b) = sends a ++ sends b := by
  induction a with
  | nil => rfl
  | cons ev rest ih => cases ev <;> simp [sends, ih]

theorem sends_setupHead (e : Env) (g : Globals) : sends (setupHead e g) = [] := by
  simp [setupHead, sends]

theorem sends_setupTail (e : Env) (g : Globals) :
    sends (setupTail e g) =
      [(memcpy (readingAfter e g.sensorData).bytes sizeofSensorData, sizeofSensorData)] := by
  simp [setupTail, sends]

theorem sends_sleepEvents (e : Env) : sends (sleepEvents e) = [] := by
  simp [sleepEvents, sends]

theorem count_read_setupHead (e : Env) (g : Globals) :
    (setupHead e g).count Event.readBME280 = 1 := by
  simp [setupHead, List.count_cons]

theorem count_read_setupTail (e : Env) (g : Globals) :
    (setupTail e g).count Event.readBME280 = 0 := by
  simp [setupTail, List.count_cons]

theorem count_read_sleepEvents (e : Env) :
    (sleepEvents e).count Event.readBME280 = 0 := by
  simp [sleepEvents, List.count_cons]

theorem eventsOf_of_trace {α : Type} (m : Fw α) (e : Env) (s : St) (evs : List Event)
    (h : (m e s).st.trace = s.trace ++ evs) : eventsOf m e s = evs := by
  simp [eventsOf, h]

theorem eventsOf_gotoSleep (e : Env) (s : St) : eventsOf gotoSleep e s = sleepEvents e :=
  eventsOf_of_trace _ _ _ _ (by simp [gotoSleep_eq, Res.st, sleepEvents])

theorem eventsOf_setup_ok (e : Env) (s : St) (h : e.espNowInit = 0) :
    eventsOf setup e s = setupHead e s.g ++ setupTail e s.g :=
  eventsOf_of_trace _ _ _ _ (by simp [setup_ok e s h, Res.st])

theorem eventsOf_setup_fail (e : Env) (s : St) (h : e.espNowInit ≠ 0) :
    eventsOf setup e s =
      setupHead e s.g ++ (Event.serial Diag.initFailed :: sleepEvents e) :=
  eventsOf_of_trace _ _ _ _ (by simp [setup_fail e s h, Res.st])

/-- Steps after `setup()` add neither a send nor a sensor read. -/
theorem run_quiet (e : Env) (steps : List Step) (s : St) :
    ∃ evs, (run e steps s).st.trace = s.trace ++ evs ∧ sends evs = [] ∧
      evs.count Event.readBME280 = 0 := by
  induction steps generalizing s with
  | nil => exact ⟨[], by simp [run, Res.st], rfl, rfl⟩
  | cons st rest ih =>
    cases st with
    | tick t =>
      by_cases hc : s.g.callbackCalled = true ∨ SEND_TIMEOUT < t
      · refine ⟨sleepEvents e, ?_, sends_sleepEvents e, count_read_sleepEvents e⟩
        simp [run, runStep, loop_eq, hc, gotoSleep_eq, Res.st, sleepEvents]
      · obtain ⟨evs, h1, h2, h3⟩ := ih s
        refine ⟨evs, ?_, h2, h3⟩
        simp [run, runStep, loop_eq, hc, h1]
    | sendDone mac status =>
      obtain ⟨evs, h1, h2, h3⟩ := ih
        { g := { s.g with callbackCalled := true },
          trace := s.trace ++ [Event.serial (Diag.sendDone status)] }
      refine ⟨Event.serial (Diag.sendDone status) :: evs, ?_, ?_, ?_⟩
      · simp [run, runStep, sendCallback_eq, h1]
      · simp [sends, h2]
      · simp [List.count_cons, h3]


theorem cycle_fail (e : Env) (h : e.espNowInit ≠ 0) (steps : List Step) :
    cycle e steps = setup e St.wake := by
  unfold cycle
  rw [setup_fail e St.wake h]

/-- C1: in a wake cycle in which `esp_now_init()` returns a non-zero value,
`setup()` ends in deep sleep through `gotoSleep()` (with the computed sleep
duration handed to `ESP.deepSleep`) and `esp_now_send` is not called, neither
by `setup()` nor later in the cycle, for every sensor result, register value
and initial state. -/
theorem C1_radio_init_failure_sleeps_without_send (e : Env) (h : e.espNowInit ≠ 0) :
    (∀ s : St, (setup e s).isAsleep = true
        ∧ Event.gotoSleep ∈ eventsOf setup e s
        ∧ Event.deepSleep ((900 + e.randomReg32 % 256 / 2) * 1000000) ∈ eventsOf setup e s
        ∧ sends (eventsOf setup e s) = [])
    ∧ ∀ steps : List Step, cycle e steps = setup e St.wake
        ∧ (cycle e steps).isAsleep = true
        ∧ sends (cycle e steps).st.trace = [] := by
  have key : ∀ s : St, (setup e s).isAsleep = true
        ∧ Event.gotoSleep ∈ eventsOf setup e s
        ∧ Event.deepSleep ((900 + e.randomReg32 % 256 / 2) * 1000000) ∈ eventsOf setup e s
        ∧ sends (eventsOf setup e s) = [] := by
    intro s
    refine ⟨by simp [setup_fail e s h, Res.isAsleep], ?_, ?_, ?_⟩
    · simp [eventsOf_setup_fail e s h, sleepEvents]
    · simp [eventsOf_setup_fail e s h, sleepEvents, toUInt64_sleepMicros]
    · simp [eventsOf_setup_fail e s h, sends_append, sends_setupHead, sends, sends_sleepEvents]
  refine ⟨key, fun steps => ?_⟩
  have hk := key St.wake
  refine ⟨cycle_fail e h steps, ?_, ?_⟩
  · rw [cycle_fail e h steps]; exact hk.1
  · rw [cycle_fail e h steps]
    have : eventsOf setup e St.wake = (setup e St.wake).st.trace := by
      simp [eventsOf, St.wake]
    rw [← this]; exact hk.2.2.2

theorem C1_witness :
    failEnv.espNowInit ≠ 0 ∧
    (setup failEnv St.wake).isAsleep = true ∧
    sends (eventsOf setup failEnv St.wake) = [] ∧
    sends (cycle failEnv [Step.tick 300, Step.sendDone [] 0]).st.trace = [] :=
  ⟨by decide,
   ((C1_radio_init_failure_sleeps_without_send failEnv (by decide)).1 St.wake).1,
   ((C1_radio_init_failure_sleeps_without_send failEnv (by decide)).1 St.wake).2.2.2,
   ((C1_radio_init_failure_sleeps_without_send failEnv (by decide)).2 _).2.2⟩

theorem cycle_ok (e : Env) (h : e.espNowInit = 0) (steps : List Step) :
    cycle e steps = run e steps
      { g := { Globals.boot with sensorData := readingAfter e Globals.boot.sensorData
                                 callbackCalled := false },
        trace := setupHead e Globals.boot ++ setupTail e Globals.boot } := by
  unfold cycle
  rw [setup_ok e St.wake h]
  simp [St.wake]

/-- C2: in a wake cycle in which `esp_now_init()` returns 0, `setup()` returns
having run `readBME280()` once and called `esp_now_send` once, whatever
`bme280.begin()` returned; an iteration of `loop()` calls neither
`esp_now_send` nor any sensor read, for every flag and clock value; and over
the whole cycle, whatever iterations and callbacks follow `setup()`, there is
one `readBME280()` and one `esp_now_send`. -/
theorem C2_one_reading_one_send (e : Env) (h : e.espNowInit = 0) :
    (∀ s : St, (setup e s).isAsleep = false
        ∧ (eventsOf setup e s).count Event.readBME280 = 1
        ∧ (sends (eventsOf setup e s)).length = 1)
    ∧ (∀ (e1 : Env) (s : St), sends (eventsOf loop e1 s) = []
        ∧ ∀ ev ∈ eventsOf loop e1 s, ev.isSensorRead = false)
    ∧ ∀ steps : List Step,
        (cycle e steps).st.trace.count Event.readBME280 = 1
        ∧ (sends (cycle e steps).st.trace).length = 1 := by
  refine ⟨fun s => ⟨by simp [setup_ok e s h, Res.isAsleep], ?_, ?_⟩, fun e1 s => ?_,
    fun steps => ?_⟩
  · simp [eventsOf_setup_ok e s h, List.count_append, count_read_setupHead,
      count_read_setupTail]
  · simp [eventsOf_setup_ok e s h, sends_append, sends_setupHead, sends_setupTail]
  · by_cases hc : s.g.callbackCalled = true ∨ SEND_TIMEOUT < e1.millis
    · have hev : eventsOf loop e1 s = sleepEvents e1 :=
        eventsOf_of_trace _ _ _ _ (by simp [loop_eq, hc, gotoSleep_eq, Res.st, sleepEvents])
      rw [hev]
      exact ⟨sends_sleepEvents e1, by simp [sleepEvents, Event.isSensorRead]⟩
    · have hev : eventsOf loop e1 s = [] :=
        eventsOf_of_trace _ _ _ _ (by simp [loop_eq, hc, Res.st])
      rw [hev]
      exact ⟨rfl, by simp⟩
  · obtain ⟨evs, h1, h2, h3⟩ := run_quiet e steps
      { g := { Globals.boot with sensorData := readingAfter e Globals.boot.sensorData
                                 callbackCalled := false },
        trace := setupHead e Globals.boot ++ setupTail e Globals.boot }
    rw [cycle_ok e h steps, h1]
    simp [List.count_append, count_read_setupHead, count_read_setupTail, h3, sends_append,
      sends_setupHead, sends_setupTail, h2]

theorem C2_witness :
    sampleEnv.espNowInit = 0 ∧
    (eventsOf setup sampleEnv St.wake).count Event.readBME280 = 1 ∧
    (sends (eventsOf setup sampleEnv St.wake)).length = 1 ∧
    (sends (cycle sampleEnv
      [Step.tick 10, Step.sendDone [] 1, Step.tick 20, Step.tick 300]).st.trace).length = 1 :=
  ⟨rfl,
   ((C2_one_reading_one_send sampleEnv rfl).1 St.wake).2.1,
   ((C2_one_reading_one_send sampleEnv rfl).1 St.wake).2.2,
   ((C2_one_reading_one_send sampleEnv rfl).2.2 _).2⟩

/-- C3: one iteration of `loop()` calls `gotoSleep()` exactly when
`callbackCalled` is set or `millis()` exceeds 245; with the flag set at
`millis() = 50` it is the call `gotoSleep()`, and with the flag clear and
`millis() <= 245` it returns with the state unchanged and no call made. -/
theorem C3_loop_sleeps_iff_ack_or_timeout (e : Env) (s : St) :
    (Event.gotoSleep ∈ eventsOf loop e s ↔ (s.g.callbackCalled = true ∨ 245 < e.millis))
    ∧ ((loop e s).isAsleep = true ↔ (s.g.callbackCalled = true ∨ 245 < e.millis))
    ∧ ((s.g.callbackCalled = true ∨ 245 < e.millis) → loop e s = gotoSleep e s)
    ∧ (s.g.callbackCalled = true → e.millis = 50 → loop e s = gotoSleep e s)
    ∧ (s.g.callbackCalled = false → e.millis ≤ 245 →
        loop e s = .ok () s ∧ eventsOf loop e s = []) := by
  by_cases hc : s.g.callbackCalled = true ∨ SEND_TIMEOUT < e.millis
  · have hl : loop e s = gotoSleep e s := by simp [loop_eq, hc]
    have hc2 : s.g.callbackCalled = true ∨ 245 < e.millis := hc
    refine ⟨?_, ?_, fun _ => hl, fun _ _ => hl, ?_⟩
    · simp [eventsOf, hl, gotoSleep_eq, Res.st, hc2]
    · simp [hl, gotoSleep_eq, Res.isAsleep, hc2]
    · intro hf ht
      rcases hc2 with h1 | h1
      · simp [hf] at h1
      · omega
  · have hl : loop e s = .ok () s := by simp [loop_eq, hc]
    have hc2 : ¬ (s.g.callbackCalled = true ∨ 245 < e.millis) := hc
    refine ⟨?_, ?_, fun h1 => absurd h1 hc2, fun h1 _ => absurd (Or.inl h1) hc2, ?_⟩
    · simp [eventsOf, hl, Res.st, hc2]
    · simp [hl, Res.isAsleep, hc2]
    · intro _ _
      exact ⟨hl, by simp [eventsOf, hl, Res.st]⟩

theorem C3_witness :
    (loop sampleEnv { St.wake with g := { Globals.boot with callbackCalled := true } }).isAsleep
      = true
    ∧ loop { sampleEnv with millis := 245 } St.wake = .ok () St.wake :=
  ⟨(C3_loop_sleeps_iff_ack_or_timeout sampleEnv
      { St.wake with g := { Globals.boot with callbackCalled := true } }).2.1.mpr (Or.inl rfl),
   ((C3_loop_sleeps_iff_ack_or_timeout { sampleEnv with millis := 245 } St.wake).2.2.2.2
      rfl (by decide)).1⟩


/-! ## Waiting for the acknowledgment -/

theorem run_append (e : Env) (a b : List Step) (s : St) :
    run e (a ++ b) s =
      match run e a s with
      | .ok _ s1 => run e b s1
      | .asleep s1 => .asleep s1 := by
  induction a generalizing s with
  | nil => simp [run]
  | cons st rest ih =>
    simp only [List.cons_append, run]
    cases runStep e st s with
    | ok a s1 => simpa using ih s1
    | asleep s1 => rfl

theorem run_ticks_waiting (e : Env) (s : St) (ts : List Nat)
    (hflag : s.g.callbackCalled = false) (hts : ∀ x ∈ ts, x ≤ 245) :
    run e (ts.map Step.tick) s = .ok () s := by
  induction ts with
  | nil => rfl
  | cons t rest ih =>
    have ht : t ≤ 245 := hts t (by simp)
    have hc : ¬ (s.g.callbackCalled = true ∨ SEND_TIMEOUT < t) := by
      simp [hflag, SEND_TIMEOUT]; omega
    simp only [List.map_cons, run, runStep, loop_eq, hc, if_false]
    exact ih (fun x hx => hts x (by simp [hx]))

theorem run_tick_timeout (e : Env) (s : St) (t : Nat) (rest : List Step) (ht : 245 < t) :
    run e (Step.tick t :: rest) s = gotoSleep { e with millis := t } s := by
  have hc : s.g.callbackCalled = true ∨ SEND_TIMEOUT < t := Or.inr ht
  simp [run, runStep, loop_eq, hc, gotoSleep_eq]

/-- C4: with `callbackCalled` never set, for every non-decreasing sequence of
`millis()` readings seen by successive iterations of `loop()`: the device is
asleep after them exactly when one of the readings exceeded 245; every
iteration before the first such reading returns with the state unchanged, the
iteration with that reading is a call of `gotoSleep()`, and no iteration
runs after it.  (The proof does not need the readings to be ordered.) -/
theorem C4_timeout_bounds_wait (e : Env) (s : St) (ts : List Nat)
    (hflag : s.g.callbackCalled = false)
    (_hmono : List.Pairwise (fun a b => a ≤ b) ts) :
    ((run e (ts.map Step.tick) s).isAsleep = true ↔ ∃ x ∈ ts, 245 < x)
    ∧ ∀ (pre post : List Nat) (t : Nat), ts = pre ++ t :: post →
        (∀ x ∈ pre, x ≤ 245) → 245 < t →
        run e (pre.map Step.tick) s = .ok () s
        ∧ run e ((pre ++ [t]).map Step.tick) s = gotoSleep { e with millis := t } s
        ∧ run e (ts.map Step.tick) s = gotoSleep { e with millis := t } s
        ∧ (gotoSleep { e with millis := t } s).isAsleep = true := by
  have split : ∀ (pre post : List Nat) (t : Nat),
      (∀ x ∈ pre, x ≤ 245) → 245 < t →
      run e ((pre ++ t :: post).map Step.tick) s = gotoSleep { e with millis := t } s := by
    intro pre post t hpre ht
    rw [List.map_append, run_append, run_ticks_waiting e s pre hflag hpre]
    exact run_tick_timeout e s t _ ht
  constructor
  · constructor
    · intro hs
      by_contra hne
      have hall : ∀ x ∈ ts, x ≤ 245 := by
        intro x hx
        by_contra hx2
        exact hne ⟨x, hx, by omega⟩
      rw [run_ticks_waiting e s ts hflag hall] at hs
      simp [Res.isAsleep] at hs
    · clear _hmono
      intro hex
      induction ts with
      | nil => simp at hex
      | cons t rest ih =>
        by_cases ht : 245 < t
        · rw [List.map_cons, run_tick_timeout e s t _ ht]
          simp [gotoSleep_eq, Res.isAsleep]
        · have hc : ¬ (s.g.callbackCalled = true ∨ SEND_TIMEOUT < t) := by
            simp [hflag, SEND_TIMEOUT]; omega
          simp only [List.map_cons, run, runStep, loop_eq, hc, if_false]
          apply ih
          obtain ⟨x, hx, hx2⟩ := hex
          rcases List.mem_cons.mp hx with h1 | h1
          · subst h1; exact absurd hx2 ht
          · exact ⟨x, h1, hx2⟩
  · intro pre post t hts hpre ht
    refine ⟨run_ticks_waiting e s pre hflag hpre, ?_, ?_, by simp [gotoSleep_eq, Res.isAsleep]⟩
    · exact split pre [] t hpre ht
    · rw [hts]; exact split pre post t hpre ht

theorem C4_witness :
    St.wake.g.callbackCalled = false ∧
    List.Pairwise (fun a b => a ≤ b) [10, 200, 246, 300] ∧
    (run sampleEnv ([10, 200, 246, 300].map Step.tick) St.wake).isAsleep = true ∧
    run sampleEnv ([10, 200].map Step.tick) St.wake = .ok () St.wake :=
  ⟨rfl, by decide,
   (C4_timeout_bounds_wait sampleEnv St.wake [10, 200, 246, 300] rfl (by decide)).1.mpr
     ⟨246, by decide, by decide⟩,
   ((C4_timeout_bounds_wait sampleEnv St.wake [10, 200, 246, 300] rfl (by decide)).2
     [10, 200] [300] 246 rfl (by decide) (by decide)).1⟩


/-! ## Sleep duration -/

/-- C5: for every value `r` of `RANDOM_REG32`, the `sleepSecs` of
`gotoSleep()` is `900 + (r mod 256) / 2` (integer division), between 900 and
1027; `r = 0` gives 900 and `r = 255` gives 1027, so it is not constant; and
it is the value `gotoSleep()` reports and multiplies for `ESP.deepSleep`. -/
theorem C5_sleep_duration_bounds (r : Nat) :
    sleepSecs r = 900 + ((r % 256 / 2 : Nat) : Int)
    ∧ 900 ≤ sleepSecs r ∧ sleepSecs r ≤ 900 + 127
    ∧ sleepSecs 0 = 900 ∧ sleepSecs 255 = 1027
    ∧ ∀ (e : Env) (s : St), eventsOf gotoSleep { e with randomReg32 := r } s =
        [Event.gotoSleep,
         Event.serial (Diag.upFor e.millisDiag (sleepSecs r)),
         Event.deepSleep (toUInt64 (wrapInt32 (sleepSecs r * 1000000)))] := by
  refine ⟨sleepSecs_eq r, ?_, ?_, by decide, by decide, fun e s => ?_⟩
  · exact (sleepSecs_bounds r).1
  · have := (sleepSecs_bounds r).2; omega
  · rw [eventsOf_gotoSleep]; rfl

/-- C9: for every value `r` of `RANDOM_REG32`, the product `sleepSecs * 1000000`
computed in 32-bit `int` equals the exact product, lies between 900000000 and
1027000000 and below 2^31, and the `uint64_t` that `gotoSleep()` hands to
`ESP.deepSleep` is that number of microseconds. -/
theorem C9_sleep_micros_no_overflow (r : Nat) :
    wrapInt32 (sleepSecs r * 1000000) = sleepSecs r * 1000000
    ∧ 900000000 ≤ sleepSecs r * 1000000
    ∧ sleepSecs r * 1000000 ≤ 1027000000
    ∧ sleepSecs r * 1000000 < 2 ^ 31
    ∧ ((toUInt64 (wrapInt32 (sleepSecs r * 1000000)) : Nat) : Int) = sleepSecs r * 1000000
    ∧ ∀ (e : Env) (s : St),
        Event.deepSleep ((900 + r % 256 / 2) * 1000000)
          ∈ eventsOf gotoSleep { e with randomReg32 := r } s := by
  have hb := sleepSecs_bounds r
  refine ⟨sleepMicros_eq r, by omega, by omega, by omega, ?_, fun e s => ?_⟩
  · rw [toUInt64_sleepMicros, sleepSecs_eq]; push_cast; ring
  · rw [eventsOf_gotoSleep]
    simp [sleepEvents, toUInt64_sleepMicros]

/-! ## Payload -/

theorem le32_length (w : Nat) : (le32 w).length = 4 := rfl

theorem bytes_length (d : SENSOR_DATA) : d.bytes.length = 16 := by
  simp [SENSOR_DATA.bytes, le32]

theorem memcpy_bytes (d : SENSOR_DATA) : memcpy d.bytes sizeofSensorData = d.bytes := by
  unfold memcpy
  exact List.take_of_length_le (by rw [bytes_length]; decide)

theorem memcpy_bytes_16 (d : SENSOR_DATA) : memcpy d.bytes 16 = d.bytes :=
  memcpy_bytes d

theorem word32_le32 (w : Nat) (h : w < 4294967296) :
    word32 (w % 256) (w / 256 % 256) (w / 65536 % 256) (w / 16777216 % 256) = w := by
  unfold word32
  omega

theorem decode_bytes (d : SENSOR_DATA) (h : d.wf) : decode d.bytes = some d := by
  obtain ⟨h1, h2, h3, h4⟩ := h
  simp only [SENSOR_DATA.bytes, le32, List.cons_append, List.nil_append, decode]
  rw [word32_le32 _ h1, word32_le32 _ h2, word32_le32 _ h3, word32_le32 _ h4]

/-- C6: for every Reading `r` of four 32-bit patterns that `sensorData` holds
when `setup()` sends, the payload passed to `esp_now_send` is the 4-byte
little-endian encodings of temp, humidity, pressure, voltage in that order,
16 bytes with length argument 16, and decoding it with the same layout gives
back `r`. -/
theorem C6_payload_layout_roundtrip (r : SENSOR_DATA) (hwf : r.wf) (e : Env) (s : St)
    (hinit : e.espNowInit = 0) (hread : (setup e s).st.g.sensorData = r) :
    sends (eventsOf setup e s) =
      [(le32 r.temp ++ le32 r.humidity ++ le32 r.pressure ++ le32 r.voltage, 16)]
    ∧ (le32 r.temp ++ le32 r.humidity ++ le32 r.pressure ++ le32 r.voltage).length = 16
    ∧ decode (le32 r.temp ++ le32 r.humidity ++ le32 r.pressure ++ le32 r.voltage)
        = some r := by
  have hr : readingAfter e s.g.sensorData = r := by
    rw [← hread, setup_ok e s hinit]; rfl
  refine ⟨?_, bytes_length r, decode_bytes r hwf⟩
  rw [eventsOf_setup_ok e s hinit, sends_append, sends_setupHead, sends_setupTail, hr,
    memcpy_bytes]
  rfl

theorem C6_witness :
    (SENSOR_DATA.mk 0x41A00000 0 0x447D4000 0x4052F684).wf ∧
    sampleEnv.espNowInit = 0 ∧
    (setup sampleEnv St.wake).st.g.sensorData
      = SENSOR_DATA.mk 0x41A00000 0 0x447D4000 0x4052F684 ∧
    sends (eventsOf setup sampleEnv St.wake) =
      [([0, 0, 160, 65, 0, 0, 0, 0, 0, 64, 125, 68, 132, 246, 82, 64], 16)] :=
  ⟨by decide, rfl, by decide,
   (C6_payload_layout_roundtrip (SENSOR_DATA.mk 0x41A00000 0 0x447D4000 0x4052F684)
      (by decide) sampleEnv St.wake rfl (by decide)).1⟩


/-! ## Order of the external actions -/

/-- C7: in a wake cycle in which `esp_now_init()` returns 0, the ordered
actions of `setup()` are: sensor read (`readBME280`), `WiFi.mode`,
`esp_now_init`, `esp_now_add_peer`, `esp_now_register_send_cb`,
`esp_now_send`; `readBME280()` and its sensor samples come before the first
call into the radio stack and no sensor read comes after it; and the send is
the last call of `setup()`. -/
theorem C7_setup_action_order (e : Env) (s : St) (h : e.espNowInit = 0) :
    (eventsOf setup e s).filterMap Event.action =
      [Action.sensorRead, Action.radioMode, Action.radioInit, Action.addPeer,
       Action.registerSendCb, Action.send]
    ∧ ((eventsOf setup e s).takeWhile (fun ev => !ev.isRadio)).filter Event.isSensorRead =
        [Event.readBME280, Event.bmeBegin, Event.bmeReadTempC, Event.bmeReadFloatPressure,
         Event.analogReadA0]
    ∧ ((eventsOf setup e s).dropWhile (fun ev => !ev.isRadio)).filter Event.isSensorRead = []
    ∧ ((eventsOf setup e s).dropWhile (fun ev => !ev.isRadio)).head? = some Event.wifiModeSTA
    ∧ (eventsOf setup e s).getLast? =
        some (Event.espNowSend (setup e s).st.g.sensorData.bytes 16) := by
  rw [eventsOf_setup_ok e s h]
  refine ⟨?_, ?_, ?_, ?_, ?_⟩
  · simp [setupHead, setupTail, Event.action]
  · simp [setupHead, setupTail, Event.isRadio, Event.isSensorRead, List.takeWhile, List.filter]
  · simp [setupHead, setupTail, Event.isRadio, Event.isSensorRead, List.dropWhile, List.filter]
  · simp [setupHead, setupTail, Event.isRadio, List.dropWhile]
  · simp [setupHead, setupTail, setup_ok e s h, Res.st, memcpy_bytes_16, sizeofSensorData]

theorem C7_witness :
    sampleEnv.espNowInit = 0 ∧
    (eventsOf setup sampleEnv St.wake).filterMap Event.action =
      [Action.sensorRead, Action.radioMode, Action.radioInit, Action.addPeer,
       Action.registerSendCb, Action.send] :=
  ⟨rfl, (C7_setup_action_order sampleEnv St.wake rfl).1⟩

/-! ## The send callback -/

/-- C8: for every peer address and status code, the send callback returns
with `callbackCalled` set to true and every other global (`sensorData`,
`sensorValue`, `remoteMac`) unchanged; its one call is the diagnostic
line. -/
theorem C8_send_callback_sets_only_flag (mac : List Nat) (status : Nat) (e : Env) (s : St) :
    ∃ s1 : St, sendCallback mac status e s = .ok () s1
      ∧ s1.g.callbackCalled = true
      ∧ s1.g.sensorData = s.g.sensorData
      ∧ s1.g.sensorValue = s.g.sensorValue
      ∧ s1.g.remoteMac = s.g.remoteMac
      ∧ s1.g = { s.g with callbackCalled := true }
      ∧ eventsOf (sendCallback mac status) e s = [Event.serial (Diag.sendDone status)] := by
  refine ⟨_, sendCallback_eq mac status e s, rfl, rfl, rfl, rfl, rfl, ?_⟩
  exact eventsOf_of_trace _ _ _ _ (by simp [sendCallback_eq, Res.st])

/-! ## The humidity field -/

/-- C10: `readBME280()` writes the temp, pressure and voltage fields of
`sensorData` and nothing else, so the humidity field keeps its value for every
sensor result; from the zero-initialised boot state, every payload sent in a
wake cycle has bytes 4..7 equal to zero, and a cycle in which
`esp_now_init()` returns 0 sends such a payload. -/
theorem C10_humidity_never_written (e : Env) :
    (∀ s : St, ∃ s1 : St, readBME280 e s = .ok () s1
        ∧ s1.g.sensorData.humidity = s.g.sensorData.humidity
        ∧ s1.g = { s.g with sensorData :=
                    { s.g.sensorData with
                      temp := e.readTempC
                      pressure := e.divBy100 e.readFloatPressure
                      voltage := e.divBy216 e.analogRead } })
    ∧ (∀ (steps : List Step) (p : List Nat × Nat), p ∈ sends (cycle e steps).st.trace →
        (p.1.drop 4).take 4 = [0, 0, 0, 0])
    ∧ (e.espNowInit = 0 → ∀ steps : List Step, ∃ bs : List Nat,
        sends (cycle e steps).st.trace = [(bs, 16)]
        ∧ (bs.drop 4).take 4 = [0, 0, 0, 0]
        ∧ (decode bs).map SENSOR_DATA.humidity = some 0) := by
  have hsends : e.espNowInit = 0 → ∀ steps : List Step,
      sends (cycle e steps).st.trace =
        [((readingAfter e Globals.boot.sensorData).bytes, 16)] := by
    intro h steps
    obtain ⟨evs, h1, h2, _⟩ := run_quiet e steps
      { g := { Globals.boot with sensorData := readingAfter e Globals.boot.sensorData
                                 callbackCalled := false },
        trace := setupHead e Globals.boot ++ setupTail e Globals.boot }
    rw [cycle_ok e h steps, h1]
    simp [sends_append, sends_setupHead, sends_setupTail, h2, memcpy_bytes_16, sizeofSensorData]
  have hbytes : (((readingAfter e Globals.boot.sensorData).bytes).drop 4).take 4
      = [0, 0, 0, 0] := by
    simp [readingAfter, Globals.boot, SENSOR_DATA.bytes, le32]
  refine ⟨fun s => ⟨_, readBME280_eq e s, rfl, rfl⟩, ?_, ?_⟩
  · intro steps p hp
    by_cases h : e.espNowInit = 0
    · rw [hsends h steps] at hp
      simp at hp
      subst hp
      exact hbytes
    · have hc := (cycle_fail e h steps)
      rw [hc, setup_fail e St.wake h] at hp
      simp [Res.st, St.wake, sends_append, sends_setupHead, sends, sends_sleepEvents] at hp
  · intro h steps
    refine ⟨_, hsends h steps, hbytes, ?_⟩
    simp [readingAfter, Globals.boot, SENSOR_DATA.bytes, le32, decode, word32]

theorem C10_witness :
    sends (cycle sampleEnv [Step.tick 10, Step.sendDone [] 0, Step.tick 11]).st.trace =
      [([0, 0, 160, 65, 0, 0, 0, 0, 0, 64, 125, 68, 132, 246, 82, 64], 16)] ∧
    ∀ p ∈ sends (cycle sampleEnv [Step.tick 10, Step.sendDone [] 0, Step.tick 11]).st.trace,
      (p.1.drop 4).take 4 = [0, 0, 0, 0] :=
  ⟨by decide, fun p hp => (C10_humidity_never_written sampleEnv).2.1 _ p hp⟩

end ESPNowBMP280
